import Mathlib

/-!
Verification development for the disaster-assistance dashboard backend
(`src/backend` of the repository): a shallow embedding in Lean 4 of the
request handlers in `main.py`, the Databricks helper module `db.py`, the
USGS sync service `earthquake_sync.py`, the SQLite cache
`earthquake_cache.py` and the synthetic generator
`synthetic_earthquakes.py`, together with theorems about the embedded
code.

Modelling conventions:
* Python floats are modelled as rationals (`Rat`); Unix timestamps in
  milliseconds as `Int`.
* A Python call that can raise is modelled with `PyResult`; `raises msg`
  is a raised exception carrying its message.
* Randomness (`random.*`) and external inputs (HTTP fetch results,
  database rows) are explicit parameters: a "draw" argument carries the
  values the random generator returned, a `FetchOutcome` argument carries
  what the HTTP fetch did.
* Python dictionaries keyed by strings are modelled as functions
  `String → Option _`.
-/

set_option maxHeartbeats 1000000
set_option maxRecDepth 4096

/-- Outcome of running a Python expression: either it raises an exception
(carrying the stringified message) or it returns a value. -/
inductive PyResult (α : Type) where
  | raises (msg : String)
  | ok (val : α)
deriving DecidableEq

/-- Python `s.strip()`: remove leading and trailing whitespace.
Implemented on the character list so that it evaluates inside the kernel. -/
def pyStrip (s : String) : String :=
  ⟨((s.data.dropWhile Char.isWhitespace).reverse.dropWhile Char.isWhitespace).reverse⟩

/-- Python truth test `not s or not s.strip()` for a string field:
the string is empty or consists only of whitespace. -/
def isBlank (s : String) : Bool :=
  s.data.all Char.isWhitespace

/-- Insert `a` into `l` in front of the first element `b` with `le a b`.
Helper for `sortBy`. -/
def insertSorted {α : Type} (le : α → α → Bool) (a : α) : List α → List α
  | [] => [a]
  | b :: l => if le a b then a :: b :: l else b :: insertSorted le a l

/-- Insertion sort by the boolean relation `le`.  Used to model both
SQLite `ORDER BY ... DESC` result order and Python `list.sort`.  It is
structurally recursive, so concrete calls evaluate inside the kernel. -/
def sortBy {α : Type} (le : α → α → Bool) : List α → List α
  | [] => []
  | a :: l => insertSorted le a (sortBy le l)

/-! ## Approval workflow (`src/backend/main.py`, endpoints
`POST /api/applications/.../approve` and `POST /api/applications/.../respond`,
together with the module `src/backend/db.py` they call into). -/

/-- Request body of the approve endpoint (`class ApprovalRequest` in
`main.py`). -/
structure ApprovalRequest where
  action : String
  comment : String
  approver_name : String
deriving DecidableEq

/-- `valid_actions` in `approve_application` (`main.py`). -/
def validActions : List String := ["approve", "reject", "request_more_info"]

/-- One entry of the module-level dictionary `in_memory_approvals` in
`main.py` (the fields written by the approve and respond handlers). -/
structure ApprovalRecord where
  status : String
  approval_action : String
  approval_comment : String
  approver_name : String
  approval_date : String
  applicant_response : Option String := none
  applicant_response_date : Option String := none
deriving DecidableEq

/-- An application row as returned by the database layer
(`db.get_application_by_id`).  Its contents are produced by the database,
so they are carried opaquely: an id, a status and the remaining columns
as key/value pairs. -/
structure DbApplication where
  id : String
  status : String
  columns : List (String × String)
deriving DecidableEq

/-- The three attributes of the module `db` that `main.py` looks up in the
approval endpoints, each modelled by what the lookup-and-call does.
`src/backend/db.py` defines none of the three (its module-level functions
are `get_databricks_connection`, `get_cursor`, `initialize_schema`,
`save_earthquake_event`, `save_homeowner_application`,
`get_homeowner_applications`), so in the system as shipped each lookup
raises `AttributeError`; the record keeps the outcome as a parameter so
the handlers can also be analysed against other database behaviours. -/
structure DbLayer where
  update_application_approval : PyResult Bool
  get_application_by_id : PyResult (Option DbApplication)
  submit_applicant_response : PyResult Bool
deriving DecidableEq

/-- The `db` module of `src/backend/db.py`: all three attributes used by
the approval endpoints are absent from the module, so each access raises
`AttributeError` (which `main.py` catches with `except Exception` and
turns into an HTTP 500). -/
def srcDb : DbLayer :=
  { update_application_approval :=
      PyResult.raises "AttributeError: module db has no attribute update_application_approval"
  , get_application_by_id :=
      PyResult.raises "AttributeError: module db has no attribute get_application_by_id"
  , submit_applicant_response :=
      PyResult.raises "AttributeError: module db has no attribute submit_applicant_response" }

/-- The dictionary `in_memory_approvals`, keyed by application id. -/
abbrev Mem := String → Option ApprovalRecord

/-- The empty `in_memory_approvals` dictionary (its state at startup). -/
def emptyMem : Mem := fun _ => none

/-- Python dictionary assignment `in_memory_approvals[k] = v`. -/
def memInsert (mem : Mem) (k : String) (v : ApprovalRecord) : Mem :=
  fun k2 => if k2 = k then some v else mem k2

/-- Responses of the approval endpoints: an `HTTPException` with status
code and detail, a success response built from the in-memory record, or a
success response built from an application row the database returned. -/
inductive ApproveResult where
  | httpError (statusCode : Nat) (detail : String)
  | successMem (message : String) (application_id : String) (record : ApprovalRecord)
  | successDb (message : String) (application : DbApplication)
deriving DecidableEq

/-- Lines 577-582 of `main.py`: the workflow status the fallback branch
derives from the approval action. -/
def newStatusFor (action : String) : String :=
  if action = "approve" then "Approved"
  else if action = "reject" then "Rejected"
  else "Under Review"

/-- Lines 576-605 of `main.py`: the in-memory fallback of the approve
handler.  It builds the approval record (with stripped comment and
approver name), stores it in `in_memory_approvals` and returns the
simulated updated application. -/
def approveFallback (now : String) (mem : Mem) (application_id : String)
    (req : ApprovalRequest) : ApproveResult × Mem :=
  let new_status := newStatusFor req.action
  let record : ApprovalRecord :=
    { status := new_status
    , approval_action := req.action
    , approval_comment := pyStrip req.comment
    , approver_name := pyStrip req.approver_name
    , approval_date := now }
  (ApproveResult.successMem
      ("Application " ++ application_id ++ " has been updated with action: "
        ++ req.action ++ " (stored in memory)")
      application_id record,
   memInsert mem application_id record)

/-- `approve_application` (`main.py` lines 528-609).  Validation errors
become HTTP 400; then the handler calls `db.update_application_approval`
and, on a truthy result, `db.get_application_by_id`; an exception from
either call is caught by the outer `except Exception` and becomes HTTP
500; if the database path yields no updated application, the in-memory
fallback runs. -/
def approve_application (db : DbLayer) (now : String) (mem : Mem)
    (application_id : String) (req : ApprovalRequest) : ApproveResult × Mem :=
  if req.action ∉ validActions then
    (ApproveResult.httpError 400
      "Invalid action. Must be one of: approve, reject, request_more_info", mem)
  else if isBlank req.comment then
    (ApproveResult.httpError 400 "Comment is required", mem)
  else if isBlank req.approver_name then
    (ApproveResult.httpError 400 "Approver name is required", mem)
  else
    match db.update_application_approval with
    | PyResult.raises msg =>
        (ApproveResult.httpError 500 ("Error updating approval: " ++ msg), mem)
    | PyResult.ok success =>
        if success then
          match db.get_application_by_id with
          | PyResult.raises msg =>
              (ApproveResult.httpError 500 ("Error updating approval: " ++ msg), mem)
          | PyResult.ok (some updated_app) =>
              (ApproveResult.successDb
                ("Application " ++ application_id ++ " has been updated with action: "
                  ++ req.action)
                updated_app, mem)
          | PyResult.ok none => approveFallback now mem application_id req
        else approveFallback now mem application_id req

/-- Lines 661-687 of `main.py`: the in-memory fallback of the respond
handler.  Only an application currently `Under Review` moves to
`Ready for Review`; any other stored status is rejected with HTTP 400 and
an unknown application with HTTP 404. -/
def respondFallback (now : String) (mem : Mem) (application_id : String)
    (response : String) : ApproveResult × Mem :=
  match mem application_id with
  | some record =>
      if record.status = "Under Review" then
        let record2 :=
          { record with
              status := "Ready for Review"
            , applicant_response := some (pyStrip response)
            , applicant_response_date := some now }
        (ApproveResult.successMem
            ("Response submitted successfully. Application " ++ application_id
              ++ " is now Ready for Review (stored in memory).")
            application_id record2,
         memInsert mem application_id record2)
      else
        (ApproveResult.httpError 400
          ("Application must be in Under Review status to submit a response. Current status: "
            ++ record.status), mem)
  | none =>
      (ApproveResult.httpError 404
        ("Application " ++ application_id ++ " not found or not in Under Review status"), mem)

/-- `submit_applicant_response` (`main.py` lines 629-691).  A blank
response body is HTTP 400; then the handler calls
`db.submit_applicant_response` and, on a truthy result,
`db.get_application_by_id`; an exception from either call is caught by
the outer `except Exception` and becomes HTTP 500; if the database path
yields no updated application, the in-memory fallback runs. -/
def submit_applicant_response (db : DbLayer) (now : String) (mem : Mem)
    (application_id : String) (response : String) : ApproveResult × Mem :=
  if isBlank response then
    (ApproveResult.httpError 400 "Response is required", mem)
  else
    match db.submit_applicant_response with
    | PyResult.raises msg =>
        (ApproveResult.httpError 500 ("Error submitting response: " ++ msg), mem)
    | PyResult.ok success =>
        if success then
          match db.get_application_by_id with
          | PyResult.raises msg =>
              (ApproveResult.httpError 500 ("Error submitting response: " ++ msg), mem)
          | PyResult.ok (some updated_app) =>
              (ApproveResult.successDb
                ("Response submitted successfully. Application " ++ application_id
                  ++ " is now Ready for Review.")
                updated_app, mem)
          | PyResult.ok none => respondFallback now mem application_id response
        else respondFallback now mem application_id response

/-! ## GeoJSON features.  A USGS feed feature as the backend reads it:
`feature.get("id")`, `feature.get("properties", {})` and
`feature.get("geometry", {}).get("coordinates", ...)`. -/

/-- The property fields of a feed feature that the backend reads; every
one of them can be absent (`dict.get` returns `None`). -/
structure FeatureProps where
  mag : Option Rat := none
  place : Option String := none
  time : Option Int := none
  updated : Option Int := none
  url : Option String := none
  detail : Option String := none
  felt : Option Int := none
  tsunami : Option Int := none
  qtype : Option String := none
deriving DecidableEq

/-- A feed feature: its id, its properties, and the coordinate list of
its geometry (`none` when the feature has no geometry or the geometry no
coordinate list, so that each caller can apply its own default). -/
structure Feature where
  fid : String
  props : FeatureProps := {}
  geometry : Option (List Rat) := none
deriving DecidableEq

/-! ## USGS sync service (`src/backend/earthquake_sync.py`) with the
SQLAlchemy models of `src/backend/database.py`.  The database session is
modelled by the list of committed `earthquakes` rows plus, during a sync,
the list of pending (added but not yet flushed) rows; the session factory
in `database.py` sets `autoflush=False`, so queries issued while the loop
runs see only the committed rows. -/

/-- A row of the `earthquakes` table (`class Earthquake` in
`database.py`). -/
structure Earthquake where
  id : String
  magnitude : Option Rat
  place : Option String
  time : Option Int
  latitude : Rat
  longitude : Rat
  depth : Rat
  data_source : String
  cached_at : Int
deriving DecidableEq

/-- A row of the `sync_metadata` table (`class SyncMetadata` in
`database.py`); timestamps are milliseconds for `last_sync_time` and a
time value for the datetime columns. -/
structure SyncMetadata where
  sync_type : String
  last_sync_time : Int
  last_sync_date : Int
  records_synced : Nat
  status : String
  error_message : Option String
  created_at : Int
  updated_at : Int
deriving DecidableEq

/-- What the HTTP fetch of the USGS query URL did: raised (connection
error, bad status, bad JSON) or returned the feature list of the decoded
GeoJSON body. -/
inductive FetchOutcome where
  | raises (msg : String)
  | ok (features : List Feature)
deriving DecidableEq

/-- The dictionary `sync_earthquakes_from_usgs` returns: `error` is only
present on failure, `last_sync_time` only on success. -/
structure SyncResult where
  success : Bool
  error : Option String
  new_records : Nat
  updated_records : Nat
  total_processed : Nat
  last_sync_time : Option Int
deriving DecidableEq

/-- Lines 35-42 of `earthquake_sync.py`: the start of the sync window is
the stored `last_sync_time` when a metadata row exists, and otherwise one
day (86400000 ms) before now. -/
def syncStartTime (meta : Option SyncMetadata) (nowMs : Int) : Int :=
  match meta with
  | some m => m.last_sync_time
  | none => nowMs - 86400000

/-- Lines 87-97 of `earthquake_sync.py`: overwrite the fields of an
existing `Earthquake` row from a feature (the id stays). -/
def updateFromFeature (nowMs : Int) (f : Feature) (e : Earthquake) : Earthquake :=
  let coords := f.geometry.getD []
  { e with
      magnitude := f.props.mag
    , place := f.props.place
    , time := f.props.time
    , latitude := coords.getD 1 0
    , longitude := coords.getD 0 0
    , depth := coords.getD 2 0
    , data_source := "USGS"
    , cached_at := nowMs }

/-- Lines 98-112 of `earthquake_sync.py`: build a new `Earthquake` row
from a feature. -/
def newFromFeature (nowMs : Int) (f : Feature) : Earthquake :=
  let coords := f.geometry.getD []
  { id := f.fid
  , magnitude := f.props.mag
  , place := f.props.place
  , time := f.props.time
  , latitude := coords.getD 1 0
  , longitude := coords.getD 0 0
  , depth := coords.getD 2 0
  , data_source := "USGS"
  , cached_at := nowMs }

/-- Session state while the feature loop of `sync_earthquakes_from_usgs`
runs: the committed rows (updated in place when a query found a match),
the pending rows added with `db.add`, and the two counters. -/
structure SyncAcc where
  work : List Earthquake
  pending : List Earthquake
  newCount : Nat
  updatedCount : Nat
deriving DecidableEq

/-- One iteration of the loop in lines 73-112 of `earthquake_sync.py`:
features with fewer than 3 coordinates are skipped (`continue`); the
query `db.query(Earthquake).filter(Earthquake.id == earthquake_id)` sees
the committed rows only (`autoflush=False`), so a match updates that row
in place and a miss adds a pending new row. -/
def syncStep (nowMs : Int) (acc : SyncAcc) (f : Feature) : SyncAcc :=
  let coords := f.geometry.getD []
  if coords.length < 3 then acc
  else
    match acc.work.find? (fun e => e.id == f.fid) with
    | some _ =>
        { acc with
            work := acc.work.map (fun e => if e.id == f.fid then updateFromFeature nowMs f e else e)
          , updatedCount := acc.updatedCount + 1 }
    | none =>
        { acc with
            pending := acc.pending ++ [newFromFeature nowMs f]
          , newCount := acc.newCount + 1 }

/-- The whole feature loop, starting from the committed store. -/
def processFeatures (nowMs : Int) (store : List Earthquake) (features : List Feature) : SyncAcc :=
  features.foldl (syncStep nowMs) { work := store, pending := [], newCount := 0, updatedCount := 0 }

/-- `sync_earthquakes_from_usgs` (`earthquake_sync.py` lines 12-173).
Inputs: the current time, the `sync_metadata` row for type `earthquake`
(if any), the committed `earthquakes` rows, and what the fetch did.
Output: the returned dictionary, the resulting metadata row and the
resulting committed store — or `raises` when the function itself raises.

The fetch-raised path runs the `except` branch on a clean session, so its
`db.commit()` persists the failed metadata.  On the fetch-ok path the
`db.commit()` at line 133 flushes the pending rows; `id` is the primary
key, so the flush fails with an `IntegrityError` exactly when two pending
rows share an id (a pending id can never collide with a committed one:
the row was only added because the query found no such id).  That
exception runs the same `except` branch, but now `db.commit()` at line
165 is called on the failed session and raises, which propagates out of
the function with nothing committed. -/
def sync_earthquakes_from_usgs (nowMs : Int) (meta : Option SyncMetadata)
    (store : List Earthquake) (fetch : FetchOutcome) :
    PyResult (SyncResult × Option SyncMetadata × List Earthquake) :=
  let start_time := syncStartTime meta nowMs
  let end_time := nowMs
  match fetch with
  | FetchOutcome.raises e =>
      let meta2 : SyncMetadata :=
        match meta with
        | some m => { m with status := "failed", error_message := some e, updated_at := nowMs }
        | none =>
            { sync_type := "earthquake"
            , last_sync_time := start_time
            , last_sync_date := nowMs
            , records_synced := 0
            , status := "failed"
            , error_message := some e
            , created_at := nowMs
            , updated_at := nowMs }
      PyResult.ok
        ({ success := false, error := some e, new_records := 0, updated_records := 0,
           total_processed := 0, last_sync_time := none }, some meta2, store)
  | FetchOutcome.ok features =>
      let acc := processFeatures nowMs store features
      if (acc.pending.map Earthquake.id).Nodup then
        let meta2 : SyncMetadata :=
          match meta with
          | some m =>
              { m with
                  last_sync_time := end_time
                , last_sync_date := nowMs
                , records_synced := acc.newCount + acc.updatedCount
                , status := "success"
                , error_message := none
                , updated_at := nowMs }
          | none =>
              { sync_type := "earthquake"
              , last_sync_time := end_time
              , last_sync_date := nowMs
              , records_synced := acc.newCount + acc.updatedCount
              , status := "success"
              , error_message := none
              , created_at := nowMs
              , updated_at := nowMs }
        PyResult.ok
          ({ success := true, error := none, new_records := acc.newCount,
             updated_records := acc.updatedCount,
             total_processed := acc.newCount + acc.updatedCount,
             last_sync_time := some end_time }, some meta2, acc.work ++ acc.pending)
      else
        PyResult.raises
          "PendingRollbackError: commit failed with IntegrityError on duplicate earthquake id"

/-! ## SQLite earthquake cache (`src/backend/earthquake_cache.py`). -/

/-- A row of the SQLite `earthquakes` table created by `init_db` in
`earthquake_cache.py`; every column except the primary key `id` is
nullable, and `tsunami` is inserted with default 0. -/
structure CachedEq where
  id : String
  magnitude : Option Rat
  place : Option String
  time : Option Int
  longitude : Rat
  latitude : Rat
  depth : Rat
  url : Option String
  tsunami : Int
  qtype : Option String
  updated : Option Int
deriving DecidableEq

/-- SQLite `INSERT OR REPLACE` on the `earthquakes` table, whose primary
key is `id`: an existing row with the same id is replaced, otherwise the
row is appended. -/
def insertOrReplace (store : List CachedEq) (e : CachedEq) : List CachedEq :=
  if store.any (fun x => x.id == e.id) then
    store.map (fun x => if x.id == e.id then e else x)
  else store ++ [e]

/-- Lines 91-116 of `earthquake_cache.py`: the row the per-feature insert
binds.  The coordinate list defaults to `[0, 0, 0]`
(`geom.get("coordinates", [0, 0, 0])`); when it has fewer than 3 entries
the index expression `coords[2]` raises `IndexError`, the per-feature
`except` catches it and the feature is skipped (`none`). -/
def cacheRecordOfFeature (f : Feature) : Option CachedEq :=
  match f.geometry.getD [0, 0, 0] with
  | lon :: lat :: dep :: _ =>
      some
        { id := f.fid
        , magnitude := f.props.mag
        , place := f.props.place
        , time := f.props.time
        , longitude := lon
        , latitude := lat
        , depth := dep
        , url := f.props.url
        , tsunami := f.props.tsunami.getD 0
        , qtype := f.props.qtype
        , updated := f.props.updated }
  | _ => none

/-- The insert loop of `fetch_and_cache_earthquakes`
(`earthquake_cache.py` lines 86-120) over the features one feed returned:
each feature is upserted by id, and `cached_count` counts the successful
inserts.  (The function afterwards also rewrites the `last_refresh`
metadata marker to the current time; the marker is modelled with
`get_last_refresh` below.) -/
def cacheStep (acc : List CachedEq × Nat) (f : Feature) : List CachedEq × Nat :=
  match cacheRecordOfFeature f with
  | some r => (insertOrReplace acc.1 r, acc.2 + 1)
  | none => acc

def fetch_and_cache_earthquakes (store : List CachedEq) (features : List Feature) :
    List CachedEq × Nat :=
  features.foldl cacheStep (store, 0)

/-- Lines 150-160 of `earthquake_cache.py`: the time threshold in
milliseconds for a timeframe; an unknown timeframe falls back to the
`"day"` threshold (`time_thresholds.get(timeframe, time_thresholds["day"])`). -/
def timeThresholdMs (nowMs : Int) (timeframe : String) : Int :=
  if timeframe = "hour" then nowMs - 3600000
  else if timeframe = "day" then nowMs - 86400000
  else if timeframe = "week" then nowMs - 604800000
  else if timeframe = "month" then nowMs - 2592000000
  else nowMs - 86400000

/-- The SQL predicate `time >= ? AND magnitude >= ?`; a NULL column makes
the comparison NULL, which `WHERE` treats as false. -/
def cachedMatches (thr : Int) (minMag : Rat) (e : CachedEq) : Bool :=
  (match e.time with
   | some t => decide (thr ≤ t)
   | none => false) &&
  (match e.magnitude with
   | some m => decide (minMag ≤ m)
   | none => false)

/-- `ORDER BY time DESC` as a boolean relation on rows (all selected rows
have non-NULL `time`, so the default is never compared). -/
def timeDescLe (a b : CachedEq) : Bool :=
  decide (b.time.getD 0 ≤ a.time.getD 0)

/-- `get_cached_earthquakes` (`earthquake_cache.py` lines 147-178): the
rows of the cache whose time is at or after the timeframe threshold and
whose magnitude is at least `min_magnitude`, ordered by time
descending. -/
def get_cached_earthquakes (nowMs : Int) (store : List CachedEq)
    (timeframe : String) (minMag : Rat) : List CachedEq :=
  sortBy timeDescLe
    (store.filter (cachedMatches (timeThresholdMs nowMs timeframe) minMag))

/-- `get_last_refresh` (`earthquake_cache.py` lines 181-194).  The
parameter is what reading the `last_refresh` metadata row did: raised (a
database error, caught by the bare `except` and turned into `"Never"`),
found no row (`"Never"`), or returned the stored string. -/
def get_last_refresh (readRow : PyResult (Option String)) : String :=
  match readRow with
  | PyResult.raises _ => "Never"
  | PyResult.ok (some v) => v
  | PyResult.ok none => "Never"

/-- `should_refresh` (`earthquake_cache.py` lines 197-209).  `parseIso`
models `datetime.fromisoformat` combined with the subtraction
`datetime.utcnow() - last_refresh_dt`: it yields the parsed marker as a
Unix timestamp in seconds, or `none` when parsing or the subtraction
raises (both are inside the `try`, whose bare `except` returns `True`). -/
def should_refresh (parseIso : String → Option Int) (nowSec : Int)
    (readRow : PyResult (Option String)) (max_age_minutes : Int) : Bool :=
  let last_refresh := get_last_refresh readRow
  if last_refresh = "Never" then true
  else
    match parseIso last_refresh with
    | none => true
    | some t => decide (max_age_minutes * 60 < nowSec - t)

/-! ## Combined store evolution, for the upsert-by-id invariant: the
system refreshes the SQLite cache (`fetch_and_cache_earthquakes`) and
syncs the relational store (`sync_earthquakes_from_usgs`) in any order. -/

/-- One store-mutating operation: a cache refresh with the features one
feed fetch returned, or a sync run with its fetch outcome at some time. -/
inductive StoreOp where
  | refresh (features : List Feature)
  | sync (nowMs : Int) (fetch : FetchOutcome)
deriving DecidableEq

/-- The two earthquake stores of the system plus the sync metadata row. -/
structure Stores where
  cache : List CachedEq
  syncStore : List Earthquake
  syncMeta : Option SyncMetadata
deriving DecidableEq

/-- Apply one operation.  A sync that raises (failed commit) leaves
nothing committed. -/
def applyOp (s : Stores) (op : StoreOp) : Stores :=
  match op with
  | StoreOp.refresh features =>
      { s with cache := (fetch_and_cache_earthquakes s.cache features).1 }
  | StoreOp.sync nowMs fetch =>
      match sync_earthquakes_from_usgs nowMs s.syncMeta s.syncStore fetch with
      | PyResult.ok (_, meta2, store2) => { s with syncMeta := meta2, syncStore := store2 }
      | PyResult.raises _ => s

/-- Both stores start empty (fresh `CREATE TABLE`). -/
def initialStores : Stores := { cache := [], syncStore := [], syncMeta := none }

/-! ## Synthetic earthquake generator
(`src/backend/synthetic_earthquakes.py`). -/

/-- Python `round(x, k)` for `s = 10 ^ k`: the integer nearest to `s * x`,
ties to the even integer (banker's rounding).  Computed with integer
floor division so concrete values reduce inside the kernel. -/
def scaledRoundHalfEven (s : Int) (x : Rat) : Int :=
  let d : Int := (x.den : Int)
  let y : Int := s * x.num
  let q : Int := Int.fdiv y d
  let r : Int := y - q * d
  if 2 * r < d then q
  else if d < 2 * r then q + 1
  else if q % 2 = 0 then q else q + 1

/-- Python `round(x, 2)`. -/
def roundTo2 (x : Rat) : Rat := mkRat (scaledRoundHalfEven 100 x) 100

/-- Python `round(x, 4)`. -/
def roundTo4 (x : Rat) : Rat := mkRat (scaledRoundHalfEven 10000 x) 10000

/-- One region entry of `EARTHQUAKE_REGIONS`. -/
structure Region where
  name : String
  latLo : Rat
  latHi : Rat
  lngLo : Rat
  lngHi : Rat
  frequency : Rat
deriving DecidableEq

/-- `EARTHQUAKE_REGIONS` (`synthetic_earthquakes.py` lines 9-24). -/
def EARTHQUAKE_REGIONS : List Region :=
  [ { name := "Southern California", latLo := 32.5, latHi := 35.5,
      lngLo := -121.0, lngHi := -114.5, frequency := 0.35 }
  , { name := "Central California", latLo := 35.0, latHi := 37.5,
      lngLo := -122.0, lngHi := -119.0, frequency := 0.25 }
  , { name := "Northern California", latLo := 37.0, latHi := 40.0,
      lngLo := -123.5, lngHi := -121.0, frequency := 0.20 }
  , { name := "Alaska", latLo := 51.0, latHi := 71.5,
      lngLo := -179.0, lngHi := -129.0, frequency := 0.10 }
  , { name := "Nevada", latLo := 35.0, latHi := 42.0,
      lngLo := -120.0, lngHi := -114.0, frequency := 0.05 }
  , { name := "Hawaii", latLo := 18.9, latHi := 22.2,
      lngLo := -160.3, lngHi := -154.8, frequency := 0.03 }
  , { name := "Pacific Northwest", latLo := 42.0, latHi := 49.0,
      lngLo := -125.0, lngHi := -116.5, frequency := 0.02 } ]

/-- `PLACE_NAMES.get(name, [name])` (`synthetic_earthquakes.py`
lines 26-45 and line 85). -/
def PLACE_NAMES (name : String) : List String :=
  if name = "Southern California" then
    ["Los Angeles", "San Diego", "Riverside", "San Bernardino", "Imperial Valley",
     "Salton Sea", "Palm Springs", "Ridgecrest", "Bakersfield", "Santa Barbara",
     "Ventura", "Oceanside", "Escondido", "Indio", "Coachella Valley"]
  else if name = "Central California" then
    ["Parkfield", "San Luis Obispo", "Paso Robles", "Fresno", "Visalia",
     "Coalinga", "King City", "Salinas", "Monterey", "Hollister"]
  else if name = "Northern California" then
    ["San Francisco", "Oakland", "San Jose", "Berkeley", "Hayward",
     "Fremont", "Santa Cruz", "Gilroy", "Morgan Hill", "Walnut Creek",
     "Concord", "Vallejo", "Napa", "Santa Rosa", "Eureka"]
  else if name = "Alaska" then
    ["Anchorage", "Fairbanks", "Aleutian Islands", "Kodiak", "Kenai Peninsula"]
  else if name = "Nevada" then
    ["Reno", "Las Vegas", "Tonopah", "Elko", "Walker Lake"]
  else if name = "Hawaii" then
    ["Big Island", "Maui", "Kilauea", "Hilo", "Kona"]
  else if name = "Pacific Northwest" then
    ["Seattle", "Portland", "Eugene", "Olympia", "Tacoma"]
  else [name]

/-- The compass directions of line 87 of `synthetic_earthquakes.py`. -/
def DIRECTIONS : List String := ["N", "NE", "E", "SE", "S", "SW", "W", "NW"]

/-- The decimal digit character of `n % 10`. -/
def digitChar (n : Nat) : Char := Char.ofNat (48 + n % 10)

/-- Decimal digits of a positive number, most significant first; `fuel`
bounds the recursion and is always passed as at least the digit count. -/
def natDigitsAux : Nat → Nat → List Char
  | 0, _ => []
  | fuel + 1, n => if n = 0 then [] else natDigitsAux fuel (n / 10) ++ [digitChar (n % 10)]

/-- Python `str(n)` for a natural number. -/
def natToString (n : Nat) : String :=
  if n = 0 then "0" else ⟨natDigitsAux (n + 1) n⟩

/-- Python format `f"{i:05d}"`: the decimal representation left-padded
with zeros to at least five characters. -/
def pad5 (i : Nat) : String :=
  ⟨List.replicate (5 - (natToString i).data.length) '0' ++ (natToString i).data⟩

/-- The values the random generator produced for one loop iteration of
`generate_synthetic_earthquakes`: the weighted region choice (as an index
into `EARTHQUAKE_REGIONS`), the uniform latitude/longitude inside the
region, the triangular magnitude and depth, the `randint` time offset
(0 to `days_back` days, in ms), and the place-string draws. -/
structure EqDraw where
  regionIdx : Nat
  lat : Rat
  lng : Rat
  mag : Rat
  depth : Rat
  timeOffsetMs : Nat
  distanceKm : Nat
  dirIdx : Nat
  placeIdx : Nat
deriving DecidableEq

/-- One generated earthquake record in the USGS-like dictionary shape of
lines 91-102 of `synthetic_earthquakes.py`. -/
structure SynthQuake where
  id : String
  magnitude : Rat
  place : String
  time : Int
  longitude : Rat
  latitude : Rat
  depth : Rat
  url : String
  tsunami : Int
  qtype : String
deriving DecidableEq

/-- The loop body of `generate_synthetic_earthquakes` (lines 62-104) for
index `i` with draw `d`.  Note that the stored `magnitude` and `depth`
are the rounded values `round(mag, 2)` and `round(depth, 2)`, while the
`tsunami` flag on line 100 is computed from the unrounded `mag` and
`depth`. -/
def mkSynthQuake (currentTimeMs : Int) (i : Nat) (d : EqDraw) : SynthQuake :=
  let region := (EARTHQUAKE_REGIONS.get? (d.regionIdx % EARTHQUAKE_REGIONS.length)).getD
    { name := "Southern California", latLo := 0, latHi := 0, lngLo := 0, lngHi := 0,
      frequency := 0 }
  let mag := d.mag
  let depth := d.depth
  let event_time := currentTimeMs - (d.timeOffsetMs : Int)
  let place_options := PLACE_NAMES region.name
  let place :=
    natToString d.distanceKm ++ "km "
      ++ (DIRECTIONS.get? (d.dirIdx % DIRECTIONS.length)).getD "N"
      ++ " of " ++ (place_options.get? (d.placeIdx % place_options.length)).getD region.name
      ++ ", " ++ region.name
  { id := "synthetic" ++ pad5 i
  , magnitude := roundTo2 mag
  , place := place
  , time := event_time
  , longitude := roundTo4 d.lng
  , latitude := roundTo4 d.lat
  , depth := roundTo2 depth
  , url := "https://earthquake.usgs.gov/earthquakes/eventpage/synthetic" ++ pad5 i
  , tsunami := if 7 ≤ mag ∧ depth < 50 then 1 else 0
  , qtype := "earthquake" }

/-- `generate_synthetic_earthquakes` (`synthetic_earthquakes.py` lines
48-109).  `draws i` carries what the random calls of iteration `i`
returned (in particular `(draws i).timeOffsetMs` is the value
`random.randint(0, days_back * 24 * 60 * 60 * 1000)` produced, so it lies
in that range); the final `earthquakes.sort(key=..., reverse=True)` is
the descending sort by `time`. -/
def generate_synthetic_earthquakes (draws : Nat → EqDraw) (currentTimeMs : Int)
    (num_earthquakes : Nat) (days_back : Nat) : List SynthQuake :=
  sortBy (fun a b => decide (b.time ≤ a.time))
    ((List.range num_earthquakes).map (fun i => mkSynthQuake currentTimeMs i (draws i)))

/-! ## The `GET /api/earthquakes` endpoint (`src/backend/main.py`
lines 66-132). -/

/-- One entry of the `earthquakes` list in the endpoint response
(lines 98-112 of `main.py`). -/
structure EqEntry where
  id : String
  magnitude : Option Rat
  place : Option String
  time : Option Int
  updated : Option Int
  longitude : Rat
  latitude : Rat
  depth : Rat
  url : Option String
  detail : Option String
  felt : Option Int
  tsunami : Int
  qtype : Option String
deriving DecidableEq

/-- The body of the transformation loop: a feature contributes an entry
exactly when its coordinate list (default `[]`) has at least 3 entries,
and then longitude, latitude and depth are `coords[0]`, `coords[1]`,
`coords[2]`. -/
def entryOfFeature (f : Feature) : Option EqEntry :=
  match f.geometry.getD [] with
  | lon :: lat :: dep :: _ =>
      some
        { id := f.fid
        , magnitude := f.props.mag
        , place := f.props.place
        , time := f.props.time
        , updated := f.props.updated
        , longitude := lon
        , latitude := lat
        , depth := dep
        , url := f.props.url
        , detail := f.props.detail
        , felt := f.props.felt
        , tsunami := f.props.tsunami.getD 0
        , qtype := f.props.qtype }
  | _ => none

/-- The response of `GET /api/earthquakes`. -/
structure EqResponse where
  count : Nat
  timeframe : String
  min_magnitude : Rat
  earthquakes : List EqEntry
deriving DecidableEq

/-- `get_earthquakes` (`main.py` lines 66-132) applied to the feature
list of a successfully fetched feed payload.  (The per-entry
`db.save_earthquake_event` call does not influence the response: its
exceptions are caught and only logged.) -/
def get_earthquakes (timeframe : String) (minMag : Rat) (payload : List Feature) :
    EqResponse :=
  let eqs := payload.filterMap entryOfFeature
  { count := eqs.length
  , timeframe := timeframe
  , min_magnitude := minMag
  , earthquakes := eqs }

/-! ## Concrete fixtures used by witnesses and counterexamples. -/

/-- A database layer in the documented fallback mode: the database is
unavailable and each call reports failure, the pattern every present
function of `db.py` follows when `get_cursor` yields no cursor. -/
def exDb : DbLayer :=
  { update_application_approval := PyResult.ok false
  , get_application_by_id := PyResult.ok none
  , submit_applicant_response := PyResult.ok false }

/-- An in-memory approval record whose status is `Under Review`. -/
def urRecord : ApprovalRecord :=
  { status := "Under Review"
  , approval_action := "request_more_info"
  , approval_comment := "Need documents"
  , approver_name := "Jane Smith"
  , approval_date := "2026-01-01T00:00:00" }

/-- `in_memory_approvals` holding the application `APP-1000` in status
`Under Review`. -/
def exMemUR : Mem := memInsert emptyMem "APP-1000" urRecord

/-- A feed feature with a full coordinate triple. -/
def exFeature : Feature :=
  { fid := "us7000abcd"
  , props := { mag := some 5, place := some "California", time := some 1 }
  , geometry := some [1, 2, 3] }

/-- Cache fixture rows (times relative to `exNowMs := 1000000000`). -/
def exQ1 : CachedEq :=
  { id := "q1", magnitude := some 4, place := none, time := some 950000000
  , longitude := 0, latitude := 0, depth := 0, url := none, tsunami := 0
  , qtype := none, updated := none }

def exQ2 : CachedEq :=
  { id := "q2", magnitude := some 5, place := none, time := some 990000000
  , longitude := 0, latitude := 0, depth := 0, url := none, tsunami := 0
  , qtype := none, updated := none }

def exQ3 : CachedEq :=
  { id := "q3", magnitude := some 9, place := none, time := some 100
  , longitude := 0, latitude := 0, depth := 0, url := none, tsunami := 0
  , qtype := none, updated := none }

def exQ4 : CachedEq :=
  { id := "q4", magnitude := some 2, place := none, time := some 990000001
  , longitude := 0, latitude := 0, depth := 0, url := none, tsunami := 0
  , qtype := none, updated := none }

/-- A concrete cache store. -/
def exCache : List CachedEq := [exQ1, exQ2, exQ3, exQ4]

/-- Payload fixture for the earthquakes endpoint: the first feature has
only two coordinates, the second a full triple. -/
def pf1 : Feature :=
  { fid := "f1", props := { mag := some 3 }, geometry := some [10, 20] }

def pf2 : Feature :=
  { fid := "f2", props := { mag := some 6 }, geometry := some [30, 40, 5] }

def exPayload : List Feature := [pf1, pf2]

/-- A draw inside the ranges the generator's random calls can actually
produce.  The magnitude call `random.triangular(1.0, 2.5, 7.5)` passes
7.5 as the `mode` argument of `triangular(low, high, mode)`; CPython
computes `low + (high - low) * sqrt(u * c)` with `u ∈ [0, 1)` and
`c = (mode - low) / (high - low) = 13/3` (the `u > c` reflection never
fires because `c > 1`), so every magnitude lies in
`[1.0, 1 + 1.5 * sqrt(13/3)) ⊆ [1, 4.13)`.  Likewise the depth call
`random.triangular(0.5, 10.0, 600.0)` only yields depths in
`[0.5, 76)`. -/
def fDraw : EqDraw :=
  { regionIdx := 0, lat := 33, lng := -118, mag := mkRat 35 10, depth := 20
  , timeOffsetMs := 1000, distanceKm := 5, dirIdx := 0, placeIdx := 0 }

/-- Every iteration of the generator receives `fDraw`. -/
def fDraws : Nat → EqDraw := fun _ => fDraw

/-! ## Theorems.  General lemmas about the sorting and upsert helpers
come first, then one theorem per specification claim. -/

theorem insertSorted_perm {α : Type} (le : α → α → Bool) (a : α) (l : List α) :
    List.Perm (insertSorted le a l) (a :: l) := by
  induction l with
  | nil => simp [insertSorted]
  | cons b l ih =>
      by_cases h : le a b
      · simp [insertSorted, h]
      · simp only [insertSorted, h, if_false, Bool.false_eq_true]
        exact List.Perm.trans (List.Perm.cons b ih) (List.Perm.swap a b l)

theorem sortBy_perm {α : Type} (le : α → α → Bool) (l : List α) :
    List.Perm (sortBy le l) l := by
  induction l with
  | nil => exact List.Perm.refl _
  | cons a l ih =>
      exact List.Perm.trans (insertSorted_perm le a (sortBy le l)) (List.Perm.cons a ih)

theorem insertSorted_pairwise {α : Type} (le : α → α → Bool)
    (htrans : ∀ a b c, le a b = true → le b c = true → le a c = true)
    (htot : ∀ a b, le a b = true ∨ le b a = true) (a : α) (l : List α)
    (hl : List.Pairwise (fun x y => le x y = true) l) :
    List.Pairwise (fun x y => le x y = true) (insertSorted le a l) := by
  induction l with
  | nil => simp [insertSorted]
  | cons b l ih =>
      rcases List.pairwise_cons.mp hl with ⟨hb, hl2⟩
      by_cases h : le a b = true
      · simp only [insertSorted, h, if_true]
        refine List.pairwise_cons.mpr ⟨?_, hl⟩
        intro x hx
        rcases List.mem_cons.mp hx with hx | hx
        · exact hx ▸ h
        · exact htrans a b x h (hb x hx)
      · simp only [insertSorted, h, if_false, Bool.false_eq_true]
        refine List.pairwise_cons.mpr ⟨?_, ih hl2⟩
        intro x hx
        have hx2 := (insertSorted_perm le a l).mem_iff.mp hx
        rcases List.mem_cons.mp hx2 with hx2 | hx2
        · rw [hx2]
          rcases htot a b with hab | hba
          · exact absurd hab h
          · exact hba
        · exact hb x hx2

theorem sortBy_pairwise {α : Type} (le : α → α → Bool)
    (htrans : ∀ a b c, le a b = true → le b c = true → le a c = true)
    (htot : ∀ a b, le a b = true ∨ le b a = true) (l : List α) :
    List.Pairwise (fun x y => le x y = true) (sortBy le l) := by
  induction l with
  | nil => simp [sortBy]
  | cons a l ih => exact insertSorted_pairwise le htrans htot a (sortBy le l) ih

/-- The in-memory fallback records the status the claim describes. -/
theorem approveFallback_record (now : String) (mem : Mem) (application_id : String)
    (req : ApprovalRequest) (h1 : req.action ∈ validActions) :
    ∃ record : ApprovalRecord,
      (approveFallback now mem application_id req).2 = memInsert mem application_id record ∧
      record.approval_action = req.action ∧
      ((req.action = "approve" ∧ record.status = "Approved") ∨
       (req.action = "reject" ∧ record.status = "Rejected") ∨
       (req.action = "request_more_info" ∧ record.status = "Under Review")) := by
  refine ⟨_, rfl, rfl, ?_⟩
  simp only [validActions, List.mem_cons, List.mem_singleton, List.not_mem_nil,
    or_false] at h1
  rcases h1 with ha | ha | ha
  · exact Or.inl ⟨ha, by simp [newStatusFor, ha]⟩
  · exact Or.inr (Or.inl ⟨ha, by simp [newStatusFor, ha]⟩)
  · exact Or.inr (Or.inr ⟨ha, by simp [newStatusFor, ha]⟩)

/-- C1: whenever the approve endpoint records an approval action (it
leaves the in-memory approvals unchanged in every other case, whatever
the database layer does), the recorded workflow status is determined by
the action: approve yields Approved, reject yields Rejected, and
request_more_info yields Under Review. -/
theorem approve_records_status_by_action (db : DbLayer) (now : String) (mem : Mem)
    (application_id : String) (req : ApprovalRequest) :
    (approve_application db now mem application_id req).2 = mem ∨
    ∃ record : ApprovalRecord,
      (approve_application db now mem application_id req).2 = memInsert mem application_id record ∧
      record.approval_action = req.action ∧
      ((req.action = "approve" ∧ record.status = "Approved") ∨
       (req.action = "reject" ∧ record.status = "Rejected") ∨
       (req.action = "request_more_info" ∧ record.status = "Under Review")) := by
  unfold approve_application
  split
  · exact Or.inl rfl
  next h1 =>
    split
    · exact Or.inl rfl
    split
    · exact Or.inl rfl
    split
    · exact Or.inl rfl
    next success =>
      split
      · split
        · exact Or.inl rfl
        · exact Or.inl rfl
        · exact Or.inr (approveFallback_record now mem application_id req (not_not.mp h1))
      · exact Or.inr (approveFallback_record now mem application_id req (not_not.mp h1))

/-- Witness for C1: a concrete approve request against the fallback-mode
database layer records status Approved. -/
theorem approve_records_status_by_action_witness :
    ∃ record : ApprovalRecord,
      (approve_application exDb "2026-02-01T00:00:00" emptyMem "APP-1000"
          { action := "approve", comment := "Looks good", approver_name := "Jane Smith" }).2
        = memInsert emptyMem "APP-1000" record ∧ record.status = "Approved" := by
  rcases approve_records_status_by_action exDb "2026-02-01T00:00:00" emptyMem "APP-1000"
      { action := "approve", comment := "Looks good", approver_name := "Jane Smith" } with
    h | ⟨record, h1, h2, h3⟩
  · exact absurd (congrFun h "APP-1000") (by decide)
  · refine ⟨record, h1, ?_⟩
    rcases h3 with ⟨_, hs⟩ | ⟨ha, _⟩ | ⟨ha, _⟩
    · exact hs
    · exact absurd ha (by decide)
    · exact absurd ha (by decide)

/-- C2: against the shipped `db.py` the respond endpoint never performs
the claimed `Under Review` to `Ready for Review` transition and never
returns the claimed 400 for a wrong stored status: a blank response is
refused with 400, but every non-blank response hits the missing module
attribute `db.submit_applicant_response`, so the handler answers HTTP 500
and leaves the stored status unchanged — here for an application that is
in status `Under Review`. -/
theorem respond_valid_request_hits_missing_db :
    isBlank "Here are the requested documents" = false ∧
    (exMemUR "APP-1000").map ApprovalRecord.status = some "Under Review" ∧
    submit_applicant_response srcDb "2026-02-01T00:00:00" exMemUR "APP-1000" "   " =
      (ApproveResult.httpError 400 "Response is required", exMemUR) ∧
    submit_applicant_response srcDb "2026-02-01T00:00:00" exMemUR "APP-1000"
        "Here are the requested documents" =
      (ApproveResult.httpError 500
        "Error submitting response: AttributeError: module db has no attribute submit_applicant_response",
       exMemUR) :=
  ⟨by decide, by decide, rfl, rfl⟩

/-- C3: a request that satisfies all three preconditions of the claim
(valid action, non-blank comment, non-blank approver name) does not get a
success response: `db.update_application_approval` is not defined in
`src/backend/db.py`, the attribute access raises `AttributeError`, and
the handler answers HTTP 500. -/
theorem approve_valid_request_returns_500 :
    "approve" ∈ validActions ∧
    isBlank "Looks good" = false ∧
    isBlank "Jane Smith" = false ∧
    approve_application srcDb "2026-02-01T00:00:00" emptyMem "APP-1000"
        { action := "approve", comment := "Looks good", approver_name := "Jane Smith" } =
      (ApproveResult.httpError 500
        "Error updating approval: AttributeError: module db has no attribute update_application_approval",
       emptyMem) :=
  ⟨by decide, by decide, by decide, rfl⟩

/-- The loop counts new rows exactly as often as it adds pending rows. -/
theorem processFoldl_newCount (nowMs : Int) (features : List Feature) (acc : SyncAcc) :
    (features.foldl (syncStep nowMs) acc).newCount + acc.pending.length =
      (features.foldl (syncStep nowMs) acc).pending.length + acc.newCount := by
  induction features generalizing acc with
  | nil => simpa using Nat.add_comm acc.newCount acc.pending.length
  | cons f fs ih =>
      rw [List.foldl_cons]
      have h := ih (syncStep nowMs acc f)
      have hstep : (syncStep nowMs acc f).newCount + acc.pending.length =
          (syncStep nowMs acc f).pending.length + acc.newCount := by
        unfold syncStep
        by_cases hc : (f.geometry.getD []).length < 3
        · simp only [hc, if_true]
          exact Nat.add_comm acc.newCount acc.pending.length
        · simp only [hc, if_false]
          cases acc.work.find? (fun e => e.id == f.fid) with
          | some e => simpa using Nat.add_comm acc.newCount acc.pending.length
          | none => simp [List.length_append]; omega
      omega

/-- `new_records` of a processed batch equals the number of pending
(newly created) rows. -/
theorem processFeatures_newCount (nowMs : Int) (store : List Earthquake)
    (features : List Feature) :
    (processFeatures nowMs store features).newCount =
      (processFeatures nowMs store features).pending.length := by
  have h := processFoldl_newCount nowMs features
    { work := store, pending := [], newCount := 0, updatedCount := 0 }
  simpa [processFeatures] using h

/-- C4 (amended): when the fetch raises and a sync-metadata row exists,
the sync records status failed with the error message, returns success
false with zero new, updated and total counts, leaves the stored
`last_sync_time` unchanged, and the next sync therefore starts from the
same window start.  When instead processing the fetched batch fails at
the final `db.commit()` (two new rows share one id, so the flush raises
`IntegrityError`), the `except` branch's own `db.commit()` raises on the
failed session and the function propagates the exception: no failed
status is recorded and no success=False dictionary is returned (the
committed state, including `last_sync_time`, is unchanged all the
same). -/
theorem sync_failure_preserves_window (nowMs nowMs2 : Int) (m : SyncMetadata)
    (store : List Earthquake) (e : String) (features : List Feature) :
    (sync_earthquakes_from_usgs nowMs (some m) store (FetchOutcome.raises e) =
      PyResult.ok
        ({ success := false, error := some e, new_records := 0, updated_records := 0,
           total_processed := 0, last_sync_time := none },
         some { m with status := "failed", error_message := some e, updated_at := nowMs },
         store)) ∧
    ({ m with status := "failed", error_message := some e, updated_at := nowMs } :
        SyncMetadata).last_sync_time = m.last_sync_time ∧
    syncStartTime
        (some { m with status := "failed", error_message := some e, updated_at := nowMs })
        nowMs2 =
      syncStartTime (some m) nowMs ∧
    (¬ ((processFeatures nowMs store features).pending.map Earthquake.id).Nodup →
      sync_earthquakes_from_usgs nowMs (some m) store (FetchOutcome.ok features) =
        PyResult.raises
          "PendingRollbackError: commit failed with IntegrityError on duplicate earthquake id") := by
  refine ⟨rfl, rfl, rfl, ?_⟩
  intro h
  unfold sync_earthquakes_from_usgs
  dsimp only
  rw [if_neg h]

/-- C4 counterexample to the original claim: the earthquake metadata row
exists and processing the fetched batch raises (its two features carry
the same fresh id, so the commit flush raises `IntegrityError`), yet the
sync neither records a failed status nor returns a success=False
dictionary — it raises. -/
theorem sync_processing_error_not_recorded :
    sync_earthquakes_from_usgs 1000
        (some { sync_type := "earthquake", last_sync_time := 111, last_sync_date := 0,
                records_synced := 7, status := "success", error_message := none,
                created_at := 0, updated_at := 0 }) []
        (FetchOutcome.ok [exFeature, exFeature]) =
      PyResult.raises
        "PendingRollbackError: commit failed with IntegrityError on duplicate earthquake id" := by
  unfold sync_earthquakes_from_usgs
  dsimp only
  rw [if_neg (by decide)]

/-- C5: a run of the sync that returns success leaves the metadata row
with status success, a cleared error message, `records_synced` equal to
new plus updated, and `last_sync_time` equal to the end of the synced
window, and the returned dictionary reports the matching counts (new
records are exactly the rows created for previously unseen ids). -/
theorem sync_success_metadata (nowMs : Int) (meta : Option SyncMetadata)
    (store : List Earthquake) (features : List Feature) (r : SyncResult)
    (m2 : Option SyncMetadata) (store2 : List Earthquake)
    (h : sync_earthquakes_from_usgs nowMs meta store (FetchOutcome.ok features) =
      PyResult.ok (r, m2, store2))
    (hr : r.success = true) :
    ∃ m3 : SyncMetadata, m2 = some m3 ∧
      m3.status = "success" ∧
      m3.error_message = none ∧
      m3.records_synced = r.new_records + r.updated_records ∧
      m3.last_sync_time = nowMs ∧
      r.new_records = (processFeatures nowMs store features).pending.length ∧
      r.updated_records = (processFeatures nowMs store features).updatedCount ∧
      r.total_processed = r.new_records + r.updated_records ∧
      r.last_sync_time = some nowMs := by
  unfold sync_earthquakes_from_usgs at h
  dsimp only at h
  split at h
  · rcases meta with _ | m
    · simp only [PyResult.ok.injEq, Prod.mk.injEq] at h
      obtain ⟨h1, h2, h3⟩ := h
      subst h1
      subst h2
      refine ⟨_, rfl, rfl, rfl, rfl, rfl, ?_, rfl, rfl, rfl⟩
      exact processFeatures_newCount nowMs store features
    · simp only [PyResult.ok.injEq, Prod.mk.injEq] at h
      obtain ⟨h1, h2, h3⟩ := h
      subst h1
      subst h2
      refine ⟨_, rfl, rfl, rfl, rfl, rfl, ?_, rfl, rfl, rfl⟩
      exact processFeatures_newCount nowMs store features
  · exact absurd h (by simp)

/-- Witness for C5: a first sync of one feature into an empty store. -/
theorem sync_success_metadata_witness :
    ∃ r : SyncResult, ∃ m2 : Option SyncMetadata, ∃ store2 : List Earthquake,
      sync_earthquakes_from_usgs 1000 none [] (FetchOutcome.ok [exFeature]) =
        PyResult.ok (r, m2, store2) ∧
      ∃ m3 : SyncMetadata, m2 = some m3 ∧ m3.status = "success" ∧
        m3.error_message = none ∧ m3.records_synced = 1 ∧ m3.last_sync_time = 1000 ∧
        r.new_records = 1 ∧ r.updated_records = 0 := by
  refine ⟨_, _, _, rfl, ?_⟩
  obtain ⟨m3, h1, h2, h3, h4, h5, h6, h7, h8, h9⟩ :=
    sync_success_metadata 1000 none [] [exFeature] _ _ _ rfl rfl
  refine ⟨m3, h1, h2, h3, ?_, h5, ?_, ?_⟩
  · rw [h4, h6, h7]
    decide
  · rw [h6]
    decide
  · rw [h7]
    decide

/-- Counting rows with a given id as a count over the id column. -/
theorem length_filter_eq_count {α : Type} (l : List α) (f : α → String) (a : String) :
    (l.filter (fun e => f e == a)).length = List.count a (l.map f) := by
  induction l with
  | nil => rfl
  | cons x l ih =>
      simp only [List.filter_cons, List.map_cons, List.count_cons]
      by_cases h : (f x == a) = true
      · simp [h, ih]
      · simp [h, ih]

/-- A store whose id column has no duplicates holds at most one row per
id. -/
theorem length_filter_le_one {α : Type} (l : List α) (f : α → String)
    (h : (l.map f).Nodup) (a : String) :
    (l.filter (fun e => f e == a)).length ≤ 1 := by
  rw [length_filter_eq_count]
  exact List.nodup_iff_count_le_one.mp h a

/-- `INSERT OR REPLACE` on a present id replaces in place: the id column
is unchanged and the new row is present. -/
theorem insertOrReplace_present (store : List CachedEq) (e : CachedEq)
    (h : e.id ∈ store.map CachedEq.id) :
    (insertOrReplace store e).map CachedEq.id = store.map CachedEq.id ∧
      e ∈ insertOrReplace store e := by
  rcases List.mem_map.mp h with ⟨x, hx, hxe⟩
  have hany : store.any (fun x => x.id == e.id) = true :=
    List.any_eq_true.mpr ⟨x, hx, by simp [hxe]⟩
  constructor
  · unfold insertOrReplace
    rw [if_pos hany, List.map_map]
    apply List.map_congr_left
    intro y _
    simp only [Function.comp]
    by_cases hy : (y.id == e.id) = true
    · rw [if_pos hy]
      exact (eq_of_beq hy).symm
    · rw [if_neg hy]
  · unfold insertOrReplace
    rw [if_pos hany]
    exact List.mem_map.mpr ⟨x, hx, by rw [if_pos (by simp [hxe])]⟩

/-- `INSERT OR REPLACE` on an absent id appends the row. -/
theorem insertOrReplace_absent (store : List CachedEq) (e : CachedEq)
    (h : e.id ∉ store.map CachedEq.id) :
    insertOrReplace store e = store ++ [e] := by
  unfold insertOrReplace
  rw [if_neg]
  intro hany
  rcases List.any_eq_true.mp hany with ⟨x, hx, hxe⟩
  exact h (List.mem_map.mpr ⟨x, hx, eq_of_beq hxe⟩)

/-- `INSERT OR REPLACE` keeps the id column duplicate-free. -/
theorem insertOrReplace_nodup (store : List CachedEq) (e : CachedEq)
    (h : (store.map CachedEq.id).Nodup) :
    ((insertOrReplace store e).map CachedEq.id).Nodup := by
  by_cases hm : e.id ∈ store.map CachedEq.id
  · rw [(insertOrReplace_present store e hm).1]
    exact h
  · rw [insertOrReplace_absent store e hm, List.map_append]
    refine List.Nodup.append h (List.nodup_singleton _) ?_
    intro a ha hb
    simp only [List.map_cons, List.map_nil, List.mem_singleton] at hb
    exact hm (hb ▸ ha)

/-- The cache insert loop keeps the id column duplicate-free. -/
theorem cacheFold_nodup (features : List Feature) (acc : List CachedEq × Nat)
    (h : (acc.1.map CachedEq.id).Nodup) :
    ((features.foldl cacheStep acc).1.map CachedEq.id).Nodup := by
  induction features generalizing acc with
  | nil => exact h
  | cons f fs ih =>
      rw [List.foldl_cons]
      apply ih
      rcases hx : cacheRecordOfFeature f with _ | r
      · simpa [cacheStep, hx] using h
      · simpa [cacheStep, hx] using insertOrReplace_nodup acc.1 r h

/-- One sync-loop step never changes the id column of the committed
rows. -/
theorem syncStep_work_ids (nowMs : Int) (acc : SyncAcc) (f : Feature) :
    (syncStep nowMs acc f).work.map Earthquake.id = acc.work.map Earthquake.id := by
  unfold syncStep
  by_cases hc : (f.geometry.getD []).length < 3
  · simp [hc]
  · simp only [hc, if_false]
    rcases hf : acc.work.find? (fun e => e.id == f.fid) with _ | e
    · rw [hf]
    · rw [hf]
      simp only []
      rw [List.map_map]
      apply List.map_congr_left
      intro x _
      simp only [Function.comp]
      by_cases hx : (x.id == f.fid) = true
      · rw [if_pos hx]
        rfl
      · rw [if_neg hx]

/-- A row pending after one sync-loop step was already pending or has an
id absent from the committed rows. -/
theorem syncStep_pending (nowMs : Int) (acc : SyncAcc) (f : Feature) :
    ∀ p ∈ (syncStep nowMs acc f).pending,
      p ∈ acc.pending ∨ p.id ∉ acc.work.map Earthquake.id := by
  unfold syncStep
  by_cases hc : (f.geometry.getD []).length < 3
  · simp only [hc, if_true]
    exact fun p hp => Or.inl hp
  · simp only [hc, if_false]
    rcases hf : acc.work.find? (fun e => e.id == f.fid) with _ | e
    · rw [hf]
      intro p hp
      simp only [] at hp
      rcases List.mem_append.mp hp with hp | hp
      · exact Or.inl hp
      · right
        have hpid : p.id = f.fid := by
          rw [List.mem_singleton.mp hp]
          rfl
        rw [hpid]
        intro hmem
        rcases List.mem_map.mp hmem with ⟨x, hx, hxid⟩
        exact List.find?_eq_none.mp hf x hx (by simp [hxid])
    · rw [hf]
      exact fun p hp => Or.inl hp

/-- Invariant of the whole sync loop: committed ids unchanged, and every
pending row carries an id absent from the committed rows. -/
theorem processFoldl_inv (nowMs : Int) (features : List Feature) (acc : SyncAcc) :
    (features.foldl (syncStep nowMs) acc).work.map Earthquake.id =
        acc.work.map Earthquake.id ∧
      ∀ p ∈ (features.foldl (syncStep nowMs) acc).pending,
        p ∈ acc.pending ∨ p.id ∉ acc.work.map Earthquake.id := by
  induction features generalizing acc with
  | nil => exact ⟨rfl, fun p hp => Or.inl hp⟩
  | cons f fs ih =>
      obtain ⟨ih1, ih2⟩ := ih (syncStep nowMs acc f)
      rw [List.foldl_cons]
      constructor
      · rw [ih1, syncStep_work_ids]
      · intro p hp
        rcases ih2 p hp with h1 | h1
        · exact syncStep_pending nowMs acc f p h1
        · rw [syncStep_work_ids] at h1
          exact Or.inr h1

/-- A committed sync keeps the id column of the relational store
duplicate-free. -/
theorem sync_store_nodup (nowMs : Int) (meta : Option SyncMetadata)
    (store : List Earthquake) (fetch : FetchOutcome)
    (out : SyncResult × Option SyncMetadata × List Earthquake)
    (h : sync_earthquakes_from_usgs nowMs meta store fetch = PyResult.ok out)
    (hnd : (store.map Earthquake.id).Nodup) :
    (out.2.2.map Earthquake.id).Nodup := by
  cases fetch with
  | raises e =>
      unfold sync_earthquakes_from_usgs at h
      dsimp only at h
      simp only [PyResult.ok.injEq] at h
      rw [← h]
      exact hnd
  | ok features =>
      unfold sync_earthquakes_from_usgs at h
      dsimp only at h
      split at h
      next hpn =>
        simp only [PyResult.ok.injEq] at h
        rw [← h]
        obtain ⟨hw, hp⟩ :=
          processFoldl_inv nowMs features
            { work := store, pending := [], newCount := 0, updatedCount := 0 }
        have hw2 : (processFeatures nowMs store features).work.map Earthquake.id =
            store.map Earthquake.id := hw
        show (((processFeatures nowMs store features).work ++
          (processFeatures nowMs store features).pending).map Earthquake.id).Nodup
        rw [List.map_append]
        refine List.Nodup.append ?_ hpn ?_
        · rw [hw2]
          exact hnd
        · intro a ha hb
          rcases List.mem_map.mp hb with ⟨p, hpmem, hpid⟩
          rcases hp p hpmem with h1 | h1
          · exact absurd h1 (List.not_mem_nil p)
          · rw [hw2] at ha
            exact h1 (hpid ▸ ha)
      next hpn => exact absurd h (by simp)

/-- One operation preserves the duplicate-free id columns of both
stores. -/
theorem applyOp_nodup (s : Stores) (op : StoreOp)
    (h1 : (s.cache.map CachedEq.id).Nodup)
    (h2 : (s.syncStore.map Earthquake.id).Nodup) :
    ((applyOp s op).cache.map CachedEq.id).Nodup ∧
      ((applyOp s op).syncStore.map Earthquake.id).Nodup := by
  cases op with
  | refresh features =>
      exact ⟨cacheFold_nodup features (s.cache, 0) h1, h2⟩
  | sync nowMs fetch =>
      rcases hs : sync_earthquakes_from_usgs nowMs s.syncMeta s.syncStore fetch with msg | out
      · simp only [applyOp, hs]
        exact ⟨h1, h2⟩
      · rcases out with ⟨r2, meta2, store2⟩
        simp only [applyOp, hs]
        exact ⟨h1, sync_store_nodup nowMs s.syncMeta s.syncStore fetch (r2, meta2, store2) hs h2⟩

/-- Any sequence of operations preserves the duplicate-free id
columns. -/
theorem foldl_applyOp_nodup (ops : List StoreOp) (s : Stores)
    (h1 : (s.cache.map CachedEq.id).Nodup)
    (h2 : (s.syncStore.map Earthquake.id).Nodup) :
    ((ops.foldl applyOp s).cache.map CachedEq.id).Nodup ∧
      ((ops.foldl applyOp s).syncStore.map Earthquake.id).Nodup := by
  induction ops generalizing s with
  | nil => exact ⟨h1, h2⟩
  | cons op ops ih =>
      rw [List.foldl_cons]
      obtain ⟨g1, g2⟩ := applyOp_nodup s op h1 h2
      exact ih (applyOp s op) g1 g2

/-- C6: earthquakes are upserted by id.  A cache upsert with a present id
overwrites in place (the id column is unchanged and the new row is
stored) and with an absent id inserts a new row; and after any sequence
of cache refreshes and relational-store syncs starting from the empty
stores, each store holds at most one record per event id. -/
theorem stores_at_most_one_record_per_id (ops : List StoreOp) :
    (∀ i : String,
        ((ops.foldl applyOp initialStores).cache.filter (fun e => e.id == i)).length ≤ 1) ∧
    (∀ i : String,
        ((ops.foldl applyOp initialStores).syncStore.filter (fun e => e.id == i)).length ≤ 1) ∧
    (∀ (store : List CachedEq) (e : CachedEq), e.id ∈ store.map CachedEq.id →
        (insertOrReplace store e).map CachedEq.id = store.map CachedEq.id ∧
          e ∈ insertOrReplace store e) ∧
    (∀ (store : List CachedEq) (e : CachedEq), e.id ∉ store.map CachedEq.id →
        insertOrReplace store e = store ++ [e]) := by
  obtain ⟨g1, g2⟩ := foldl_applyOp_nodup ops initialStores (by simp [initialStores])
    (by simp [initialStores])
  exact ⟨fun i => length_filter_le_one _ _ g1 i,
         fun i => length_filter_le_one _ _ g2 i,
         insertOrReplace_present,
         insertOrReplace_absent⟩

/-- Witness for C6: a refresh feeding the same feature twice still leaves
at most one cached row for its id, and the two upsert modes at concrete
stores. -/
theorem stores_at_most_one_record_per_id_witness :
    ((([StoreOp.refresh [exFeature, exFeature]].foldl applyOp initialStores).cache.filter
        (fun e => e.id == "us7000abcd")).length ≤ 1) ∧
    ((insertOrReplace [exQ1] exQ1).map CachedEq.id = [exQ1].map CachedEq.id ∧
      exQ1 ∈ insertOrReplace [exQ1] exQ1) ∧
    insertOrReplace [] exQ1 = [] ++ [exQ1] := by
  refine ⟨(stores_at_most_one_record_per_id [StoreOp.refresh [exFeature, exFeature]]).1
      "us7000abcd", ?_, ?_⟩
  · exact (stores_at_most_one_record_per_id []).2.2.1 [exQ1] exQ1 (by decide)
  · exact (stores_at_most_one_record_per_id []).2.2.2 [] exQ1 (by decide)

/-- C7: `get_cached_earthquakes` returns exactly (a permutation of) the
cached rows whose time is at or after the timeframe threshold and whose
magnitude is at least `min_magnitude`, ordered by time descending; the
thresholds are one hour, one day, seven days and thirty days before now,
and an unrecognized timeframe is treated as day. -/
theorem get_cached_earthquakes_spec (nowMs : Int) (store : List CachedEq)
    (timeframe : String) (minMag : Rat) :
    List.Perm (get_cached_earthquakes nowMs store timeframe minMag)
      (store.filter (cachedMatches (timeThresholdMs nowMs timeframe) minMag)) ∧
    List.Pairwise (fun a b => b.time.getD 0 ≤ a.time.getD 0)
      (get_cached_earthquakes nowMs store timeframe minMag) ∧
    (∀ e : CachedEq,
      cachedMatches (timeThresholdMs nowMs timeframe) minMag e = true ↔
        ((∃ t, e.time = some t ∧ timeThresholdMs nowMs timeframe ≤ t) ∧
         (∃ m, e.magnitude = some m ∧ minMag ≤ m))) ∧
    (timeThresholdMs nowMs "hour" = nowMs - 3600000 ∧
     timeThresholdMs nowMs "day" = nowMs - 86400000 ∧
     timeThresholdMs nowMs "week" = nowMs - 7 * 86400000 ∧
     timeThresholdMs nowMs "month" = nowMs - 30 * 86400000) ∧
    (timeframe ≠ "hour" → timeframe ≠ "day" → timeframe ≠ "week" → timeframe ≠ "month" →
      get_cached_earthquakes nowMs store timeframe minMag =
        get_cached_earthquakes nowMs store "day" minMag) := by
  refine ⟨?_, ?_, ?_, ?_, ?_⟩
  · exact sortBy_perm _ _
  · have hp := sortBy_pairwise timeDescLe
      (by
        intro a b c hab hbc
        simp only [timeDescLe, decide_eq_true_eq] at hab hbc ⊢
        exact le_trans hbc hab)
      (by
        intro a b
        simp only [timeDescLe, decide_eq_true_eq]
        exact Int.le_total (b.time.getD 0) (a.time.getD 0))
      (store.filter (cachedMatches (timeThresholdMs nowMs timeframe) minMag))
    exact hp.imp (fun h => by simpa [timeDescLe, decide_eq_true_eq] using h)
  · intro e
    unfold cachedMatches
    rcases e.time with _ | t <;> rcases e.magnitude with _ | m <;> simp
  · refine ⟨by simp [timeThresholdMs], by simp [timeThresholdMs], ?_, ?_⟩
    · have h7 : (7 : Int) * 86400000 = 604800000 := by norm_num
      simp [timeThresholdMs, h7]
    · have h30 : (30 : Int) * 86400000 = 2592000000 := by norm_num
      simp [timeThresholdMs, h30]
  · intro h1 h2 h3 h4
    unfold get_cached_earthquakes timeThresholdMs
    simp [h1, h2, h3, h4]

/-- Witness for C7: an unrecognized timeframe behaves like day, and a
concrete day query returns the matching rows newest first. -/
theorem get_cached_earthquakes_spec_witness :
    get_cached_earthquakes 1000000000 exCache "fortnight" 3 =
      get_cached_earthquakes 1000000000 exCache "day" 3 ∧
    get_cached_earthquakes 1000000000 exCache "day" 3 = [exQ2, exQ1] := by
  constructor
  · exact (get_cached_earthquakes_spec 1000000000 exCache "fortnight" 3).2.2.2.2
      (by decide) (by decide) (by decide) (by decide)
  · decide

/-- C8: `should_refresh` returns true exactly when no refresh marker is
stored (`get_last_refresh` yields the string Never, also on a read
error), the stored marker does not parse to a comparable timestamp, or
the marker age strictly exceeds `max_age_minutes * 60` seconds; the
function is total, so it never raises. -/
theorem should_refresh_iff (parseIso : String → Option Int) (nowSec : Int)
    (readRow : PyResult (Option String)) (max_age_minutes : Int) :
    should_refresh parseIso nowSec readRow max_age_minutes = true ↔
      (get_last_refresh readRow = "Never" ∨
       parseIso (get_last_refresh readRow) = none ∨
       ∃ t, parseIso (get_last_refresh readRow) = some t ∧
         max_age_minutes * 60 < nowSec - t) := by
  unfold should_refresh
  by_cases hn : get_last_refresh readRow = "Never"
  · simp [hn]
  · rw [if_neg hn]
    rcases hp : parseIso (get_last_refresh readRow) with _ | t
    · simp [hn, hp]
    · simp [hn, hp]

/-- C9: the earthquakes endpoint includes only features whose geometry
has at least 3 coordinates, fills longitude, latitude and depth from the
first three coordinates, and its count field always equals the length of
the earthquakes list. -/
theorem get_earthquakes_spec (timeframe : String) (minMag : Rat) (payload : List Feature) :
    (get_earthquakes timeframe minMag payload).count =
      (get_earthquakes timeframe minMag payload).earthquakes.length ∧
    ∀ e ∈ (get_earthquakes timeframe minMag payload).earthquakes,
      ∃ f ∈ payload, ∃ lon lat dep rest,
        f.geometry.getD [] = lon :: lat :: dep :: rest ∧
        3 ≤ (f.geometry.getD []).length ∧
        e.id = f.fid ∧ e.longitude = lon ∧ e.latitude = lat ∧ e.depth = dep := by
  refine ⟨rfl, ?_⟩
  intro e he
  have he2 : e ∈ payload.filterMap entryOfFeature := he
  rcases List.mem_filterMap.mp he2 with ⟨f, hf, hef⟩
  refine ⟨f, hf, ?_⟩
  unfold entryOfFeature at hef
  rcases hco : f.geometry.getD [] with _ | ⟨lon, _ | ⟨lat, _ | ⟨dep, rest⟩⟩⟩ <;>
    rw [hco] at hef
  · exact absurd hef (by simp)
  · exact absurd hef (by simp)
  · exact absurd hef (by simp)
  · have he3 := Option.some_inj.mp hef
    refine ⟨lon, lat, dep, rest, rfl, by simp only [List.length_cons]; omega,
      ?_, ?_, ?_, ?_⟩ <;> rw [← he3]

/-- Witness for C9: the feature with two coordinates is dropped, the one
with three is kept with its coordinates. -/
theorem get_earthquakes_spec_witness :
    (get_earthquakes "day" 3 exPayload).count = 1 ∧
    ∃ e ∈ (get_earthquakes "day" 3 exPayload).earthquakes,
      ∃ f ∈ exPayload, ∃ lon lat dep rest,
        f.geometry.getD [] = lon :: lat :: dep :: rest ∧
        3 ≤ (f.geometry.getD []).length ∧
        e.id = f.fid ∧ e.longitude = lon ∧ e.latitude = lat ∧ e.depth = dep := by
  obtain ⟨h1, h2⟩ := get_earthquakes_spec "day" 3 exPayload
  refine ⟨by decide, ?_⟩
  rcases hres : (get_earthquakes "day" 3 exPayload).earthquakes with _ | ⟨e, rest⟩
  · exact absurd hres (by decide)
  · refine ⟨e, List.mem_cons_self e rest, h2 e ?_⟩
    rw [hres]
    exact List.mem_cons_self e rest

/-- If `s * x < B` as an exact rational inequality (stated on the
numerator and denominator), banker's rounding of `s * x` is at most
`B`. -/
theorem scaledRoundHalfEven_le (s : Int) (x : Rat) (B : Int)
    (h : s * x.num < B * (x.den : Int)) :
    scaledRoundHalfEven s x ≤ B := by
  have hd : (0 : Int) < (x.den : Int) := by exact_mod_cast x.pos
  have hfd : (s * x.num).fdiv ((x.den : Int)) = (s * x.num) / ((x.den : Int)) :=
    Int.fdiv_eq_ediv _ (le_of_lt hd)
  have hsum := Int.ediv_add_emod (s * x.num) ((x.den : Int))
  have hmod0 : 0 ≤ (s * x.num) % ((x.den : Int)) := Int.emod_nonneg _ (ne_of_gt hd)
  have hlow : ((x.den : Int)) * ((s * x.num) / ((x.den : Int))) ≤ s * x.num := by omega
  have hqB : (s * x.num) / ((x.den : Int)) < B := by
    have h2 : ((x.den : Int)) * ((s * x.num) / ((x.den : Int))) < ((x.den : Int)) * B := by
      calc ((x.den : Int)) * ((s * x.num) / ((x.den : Int))) ≤ s * x.num := hlow
        _ < B * ((x.den : Int)) := h
        _ = ((x.den : Int)) * B := mul_comm _ _
    exact lt_of_mul_lt_mul_left h2 (le_of_lt hd)
  unfold scaledRoundHalfEven
  dsimp only
  rw [hfd]
  split_ifs <;> omega

/-- Every magnitude `random.triangular(1.0, 2.5, 7.5)` can produce stays
below 4.13, and `round(mag, 2)` of such a value stays below 7. -/
theorem roundTo2_lt_seven (x : Rat) (h : x < mkRat 413 100) : roundTo2 x < 7 := by
  have hden : (0 : ℚ) < ((x.den : ℚ)) := by exact_mod_cast x.pos
  have key : (100 : ℚ) * ((x.num : ℚ)) < 413 * ((x.den : ℚ)) := by
    have hmk : (mkRat 413 100 : ℚ) = 413 / 100 := by
      rw [Rat.mkRat_eq_div]
      norm_num
    rw [hmk] at h
    have h2 : ((x.num : ℚ)) / ((x.den : ℚ)) < 413 / 100 := by
      rw [Rat.num_div_den]
      exact h
    rw [div_lt_div_iff₀ hden (by norm_num : (0 : ℚ) < 100)] at h2
    linarith
  have hnum : 100 * x.num < 413 * ((x.den : Int)) := by exact_mod_cast key
  have hle := scaledRoundHalfEven_le 100 x 413 hnum
  unfold roundTo2
  rw [Rat.mkRat_eq_div]
  have hcast : ((scaledRoundHalfEven 100 x : Int) : ℚ) ≤ 413 := by exact_mod_cast hle
  have h100 : ((100 : Nat) : ℚ) = 100 := by norm_num
  rw [h100]
  linarith

/-- C10: the generator returns exactly `num_earthquakes` records sorted
by time descending, and every record has `tsunami = 1` exactly when its
magnitude is at least 7.0 and its depth is below 50, and `tsunami = 0`
otherwise.  The hypothesis records what the source's magnitude draw
`random.triangular(1.0, 2.5, 7.5)` can actually return (`triangular` has
signature `(low, high, mode)`, so this is low 1.0, high 2.5, mode 7.5;
CPython yields `1 + 1.5 * sqrt(u * 13/3)` with `u ∈ [0, 1)`, hence
values in `[1.0, 4.1225) ⊂ [1, 4.13)`): under it every stored magnitude
stays below 7 and `tsunami` is always 0, so both sides of the claimed
equivalence are always false and the claim holds. -/
theorem generate_synthetic_spec (draws : Nat → EqDraw) (currentTimeMs : Int)
    (num_earthquakes days_back : Nat)
    (hmag : ∀ i, (draws i).mag < mkRat 413 100) :
    (generate_synthetic_earthquakes draws currentTimeMs num_earthquakes days_back).length =
      num_earthquakes ∧
    List.Pairwise (fun a b : SynthQuake => b.time ≤ a.time)
      (generate_synthetic_earthquakes draws currentTimeMs num_earthquakes days_back) ∧
    ∀ q ∈ generate_synthetic_earthquakes draws currentTimeMs num_earthquakes days_back,
      (q.tsunami = 1 ↔ (7 ≤ q.magnitude ∧ q.depth < 50)) ∧
      q.tsunami = 0 ∧ q.magnitude < 7 := by
  refine ⟨?_, ?_, ?_⟩
  · unfold generate_synthetic_earthquakes
    rw [(sortBy_perm _ _).length_eq, List.length_map, List.length_range]
  · have hp := sortBy_pairwise (fun a b : SynthQuake => decide (b.time ≤ a.time))
      (by
        intro a b c hab hbc
        simp only [decide_eq_true_eq] at hab hbc ⊢
        exact le_trans hbc hab)
      (by
        intro a b
        simp only [decide_eq_true_eq]
        exact Int.le_total b.time a.time)
      ((List.range num_earthquakes).map
        (fun i => mkSynthQuake currentTimeMs i (draws i)))
    exact hp.imp (fun h => by simpa using h)
  · intro q hq
    have hq2 := (sortBy_perm _ _).mem_iff.mp hq
    rcases List.mem_map.mp hq2 with ⟨i, hi, hqi⟩
    have hlt : (draws i).mag < 7 := lt_trans (hmag i) (by decide)
    have hmag7 : q.magnitude < 7 := by
      rw [← hqi]
      exact roundTo2_lt_seven (draws i).mag (hmag i)
    have hcond : ¬ (7 ≤ (draws i).mag ∧ (draws i).depth < 50) := by
      rintro ⟨h7, _⟩
      exact absurd h7 (not_le.mpr hlt)
    have htsu : q.tsunami = 0 := by
      rw [← hqi]
      show (if 7 ≤ (draws i).mag ∧ (draws i).depth < 50 then 1 else 0) = 0
      rw [if_neg hcond]
    refine ⟨⟨?_, ?_⟩, htsu, hmag7⟩
    · intro h1
      rw [htsu] at h1
      exact absurd h1 (by decide)
    · rintro ⟨h7, _⟩
      exact absurd h7 (not_le.mpr hmag7)

/-- Witness for C10 on a concrete run with feasible draws. -/
theorem generate_synthetic_spec_witness :
    (generate_synthetic_earthquakes fDraws 1700000000000 3 7).length = 3 ∧
    ∃ q ∈ generate_synthetic_earthquakes fDraws 1700000000000 3 7,
      (q.tsunami = 1 ↔ (7 ≤ q.magnitude ∧ q.depth < 50)) ∧ q.tsunami = 0 := by
  obtain ⟨h1, _, h3⟩ :=
    generate_synthetic_spec fDraws 1700000000000 3 7
      (fun _ => (by decide : fDraw.mag < mkRat 413 100))
  refine ⟨h1, mkSynthQuake 1700000000000 0 fDraw, ?_, ?_⟩
  · decide
  · have hrec := h3 (mkSynthQuake 1700000000000 0 fDraw) (by decide)
    exact ⟨hrec.1, hrec.2.1⟩

/-- Witness for C4: a concrete failed fetch against an existing metadata
row keeps `last_sync_time` at 111 and records the failure, and a batch
with a duplicated fresh id makes the same run raise instead of
returning. -/
theorem sync_failure_preserves_window_witness :
    (∃ m2 : SyncMetadata,
      sync_earthquakes_from_usgs 5000
          (some { sync_type := "earthquake", last_sync_time := 111, last_sync_date := 0,
                  records_synced := 7, status := "success", error_message := none,
                  created_at := 0, updated_at := 0 }) [] (FetchOutcome.raises "boom") =
        PyResult.ok
          ({ success := false, error := some "boom", new_records := 0, updated_records := 0,
             total_processed := 0, last_sync_time := none }, some m2, []) ∧
      m2.status = "failed" ∧ m2.error_message = some "boom" ∧ m2.last_sync_time = 111) ∧
    sync_earthquakes_from_usgs 5000
        (some { sync_type := "earthquake", last_sync_time := 111, last_sync_date := 0,
                records_synced := 7, status := "success", error_message := none,
                created_at := 0, updated_at := 0 }) []
        (FetchOutcome.ok [exFeature, exFeature]) =
      PyResult.raises
        "PendingRollbackError: commit failed with IntegrityError on duplicate earthquake id" := by
  obtain ⟨h1, h2, h3, h4⟩ := sync_failure_preserves_window 5000 6000
    { sync_type := "earthquake", last_sync_time := 111, last_sync_date := 0,
      records_synced := 7, status := "success", error_message := none,
      created_at := 0, updated_at := 0 } [] "boom" [exFeature, exFeature]
  exact ⟨⟨_, h1, rfl, rfl, rfl⟩, h4 (by decide)⟩

/-- Witness for C8: an unparseable stored marker forces a refresh. -/
theorem should_refresh_iff_witness :
    should_refresh (fun _ => none) 0 (PyResult.ok (some "not a timestamp")) 60 = true :=
  (should_refresh_iff (fun _ => none) 0 (PyResult.ok (some "not a timestamp")) 60).mpr
    (Or.inr (Or.inl rfl))
